import Mathlib

/-!
# Verification of the Energy Off-Peak Tracker

A shallow embedding of `custom_components/energy_offpeak` (a Home Assistant
custom integration) together with proofs about its core state machine.

* `sensor.py` — the off-peak tracker sensor: snapshot state, the
  `_update_value` recomputation, and the three time-trigger handlers
  (`_handle_peak_start`, `_handle_peak_end`, `_handle_midnight_reset`) plus
  the source-change handler.
* `config_flow.py` — the configuration flow: the `TIME_PATTERN` regex, the
  `_validate_time` helper and the `async_step_user` submission logic.

Python floats are modelled as rationals (`ℚ`); `round(x, 3)` is modelled by
`round3`; a fallible source read (`_get_source_value`) returns `Option ℚ`.
Unreadable source states (missing entity, "unknown"/"unavailable", or a
non-numeric state string) are abstracted by the `SourceReading` inductive.
-/

namespace EnergyOffpeak

/-- The state of the upstream source entity, as seen by
`_get_source_value` (sensor.py lines 237-245): the entity may be missing
(`none` at the `SourceState` level), report the literal states `unknown` or
`unavailable`, hold a string that does not parse as a float, or hold a
numeric value. -/
inductive SourceReading where
  | unknown
  | unavailable
  | nonNumeric
  | numeric (v : ℚ)
deriving DecidableEq, Repr

/-- `hass.states.get(source_entity)`: `none` when the entity is absent. -/
abbrev SourceState := Option SourceReading

/-- The immutable tracker configuration (source entity id and the parsed
peak-window bounds, `_parse_hhmm` of the configured "HH:MM" strings). -/
structure TrackerConfig where
  source_entity : String
  peak_start_h : ℕ
  peak_start_m : ℕ
  peak_end_h : ℕ
  peak_end_m : ℕ
deriving DecidableEq, Repr

/-- `peak_start_minutes` as computed in `_update_value` / `_is_peak_window`. -/
def peakStartMinutes (cfg : TrackerConfig) : ℕ :=
  cfg.peak_start_h * 60 + cfg.peak_start_m

/-- `peak_end_minutes` as computed in `_update_value` / `_is_peak_window`. -/
def peakEndMinutes (cfg : TrackerConfig) : ℕ :=
  cfg.peak_end_h * 60 + cfg.peak_end_m

/-- The persisted snapshot record: `_snapshot_start`, `_snapshot_end`,
`_snapshot_date` (sensor.py lines 111-113); also the exact shape written by
`_async_save_snapshots` (lines 312-320). -/
structure SnapshotState where
  snapshot_start : Option ℚ
  snapshot_end : Option ℚ
  snapshot_date : Option String
deriving DecidableEq, Repr

/-- The mutable sensor state: the snapshot record plus the last published
native value (`_attr_native_value`). -/
structure SensorState where
  snap : SnapshotState
  native_value : Option ℚ
deriving DecidableEq, Repr

/-- Python's `round(x, 3)`: the value rounded to 3 decimal places
(modelled as round-half-up on exact rationals). -/
def round3 (x : ℚ) : ℚ := ((x * 1000 + 1/2).floor : ℚ) / 1000

/-- `_get_source_value` (sensor.py lines 237-245): `None` for a missing
entity, for the states "unknown"/"unavailable", and for a state string that
`float()` cannot parse; otherwise the parsed numeric value. -/
def getSourceValue (s : SourceState) : Option ℚ :=
  match s with
  | none => none
  | some SourceReading.unknown => none
  | some SourceReading.unavailable => none
  | some SourceReading.nonNumeric => none
  | some (SourceReading.numeric v) => some v

/-- The value chosen by the branch structure of `_update_value`
(sensor.py lines 266-287) when the source read succeeded with total `t`. -/
def valueAt (cfg : TrackerConfig) (currentMinutes : ℕ) (t : ℚ)
    (snap : SnapshotState) : ℚ :=
  if currentMinutes < peakStartMinutes cfg then
    t
  else if currentMinutes < peakEndMinutes cfg then
    match snap.snapshot_start with
    | some s => s
    | none => t
  else
    match snap.snapshot_start, snap.snapshot_end with
    | some s, some e => max 0 (t - max 0 (e - s))
    | some _, none => t
    | none, _ => t

/-- The status string chosen by the same branch structure of
`_update_value` when the source read succeeded. -/
def statusAt (cfg : TrackerConfig) (currentMinutes : ℕ)
    (snap : SnapshotState) : String :=
  if currentMinutes < peakStartMinutes cfg then
    "off_peak (before window)"
  else if currentMinutes < peakEndMinutes cfg then
    "peak window (frozen)"
  else
    match snap.snapshot_start, snap.snapshot_end with
    | some _, some _ => "off_peak (after window)"
    | some _, none => "off_peak (missing end snapshot)"
    | none, _ => "off_peak (no snapshots)"

/-- Lines 263-287 of `_update_value`: the `(value, status)` pair.  On an
unreadable source the value is the retained `_attr_native_value` (possibly
`None`) and the status is "unavailable"; otherwise the branch on the current
minute-of-day and the snapshots. -/
def computeValue (cfg : TrackerConfig) (currentMinutes : ℕ)
    (total : Option ℚ) (st : SensorState) : Option ℚ × String :=
  match total with
  | none => (st.native_value, "unavailable")
  | some t =>
      (some (valueAt cfg currentMinutes t st.snap),
       statusAt cfg currentMinutes st.snap)

/-- Zero-padded two-digit formatting, Python's `f"{n:02d}"` for `0 ≤ n`. -/
def fmt2 (n : ℕ) : String := if n < 10 then "0" ++ toString n else toString n

/-- The extra state attributes dict built at the end of `_update_value`
(sensor.py lines 298-306).  Note that `snapshot_date` is not among them. -/
structure Attributes where
  source_entity : String
  peak_start : String
  peak_end : String
  snapshot_start : Option ℚ
  snapshot_end : Option ℚ
  peak_usage : Option ℚ
  status : String
deriving DecidableEq, Repr

/-- The outcome of one `_update_value` call: the new sensor state (only
`_attr_native_value` can change), the status, and the attributes. -/
structure UpdateResult where
  state : SensorState
  status : String
  attributes : Attributes
deriving DecidableEq, Repr

/-- `_update_value` (sensor.py lines 255-306): read the source, pick
`(value, status)`, round and store the value when it is not `None`
(lines 289-290), and rebuild the attributes. -/
def updateValue (cfg : TrackerConfig) (currentMinutes : ℕ)
    (src : SourceState) (st : SensorState) : UpdateResult :=
  let total := getSourceValue src
  let vs := computeValue cfg currentMinutes total st
  let native : Option ℚ :=
    match vs.1 with
    | some v => some (round3 v)
    | none => st.native_value
  let peakUsage : Option ℚ :=
    match st.snap.snapshot_start, st.snap.snapshot_end with
    | some s, some e => some (round3 (max 0 (e - s)))
    | _, _ => none
  { state := { snap := st.snap, native_value := native }
    status := vs.2
    attributes :=
      { source_entity := cfg.source_entity
        peak_start := fmt2 cfg.peak_start_h ++ ":" ++ fmt2 cfg.peak_start_m
        peak_end := fmt2 cfg.peak_end_h ++ ":" ++ fmt2 cfg.peak_end_m
        snapshot_start := st.snap.snapshot_start
        snapshot_end := st.snap.snapshot_end
        peak_usage := peakUsage
        status := vs.2 } }

/-- The outcome of one time-trigger callback: the new sensor state, the
record dispatched to the store (`none` when `_async_save_snapshots` was not
dispatched), and the published update. -/
structure TriggerResult where
  state : SensorState
  persisted : Option SnapshotState
  update : UpdateResult
deriving DecidableEq, Repr

/-- `_handle_peak_start` (sensor.py lines 191-203): set `snapshot_date` to
today; if the source is readable capture it into `snapshot_start`, clear
`snapshot_end` and persist; then recompute. -/
def handlePeakStart (cfg : TrackerConfig) (today : String)
    (src : SourceState) (currentMinutes : ℕ) (st : SensorState) :
    TriggerResult :=
  match getSourceValue src with
  | some v =>
      let snap1 : SnapshotState :=
        { snapshot_start := some v, snapshot_end := none,
          snapshot_date := some today }
      let st1 : SensorState := { snap := snap1, native_value := st.native_value }
      let upd := updateValue cfg currentMinutes src st1
      { state := upd.state, persisted := some snap1, update := upd }
  | none =>
      let snap1 : SnapshotState := { st.snap with snapshot_date := some today }
      let st1 : SensorState := { snap := snap1, native_value := st.native_value }
      let upd := updateValue cfg currentMinutes src st1
      { state := upd.state, persisted := none, update := upd }

/-- `_handle_peak_end` (sensor.py lines 205-214): if the source is readable
capture it into `snapshot_end` and persist; then recompute. -/
def handlePeakEnd (cfg : TrackerConfig) (src : SourceState)
    (currentMinutes : ℕ) (st : SensorState) : TriggerResult :=
  match getSourceValue src with
  | some v =>
      let snap1 : SnapshotState := { st.snap with snapshot_end := some v }
      let st1 : SensorState := { snap := snap1, native_value := st.native_value }
      let upd := updateValue cfg currentMinutes src st1
      { state := upd.state, persisted := some snap1, update := upd }
  | none =>
      let upd := updateValue cfg currentMinutes src st
      { state := upd.state, persisted := none, update := upd }

/-- `_handle_midnight_reset` (sensor.py lines 216-225): clear both
snapshots, set `snapshot_date` to the new day, persist unconditionally,
then recompute. -/
def handleMidnightReset (cfg : TrackerConfig) (today : String)
    (src : SourceState) (currentMinutes : ℕ) (st : SensorState) :
    TriggerResult :=
  let snap1 : SnapshotState :=
    { snapshot_start := none, snapshot_end := none,
      snapshot_date := some today }
  let st1 : SensorState := { snap := snap1, native_value := st.native_value }
  let upd := updateValue cfg currentMinutes src st1
  { state := upd.state, persisted := some snap1, update := upd }

/-- `_handle_source_state_change` (sensor.py lines 227-231): no snapshot
mutation, just recompute and publish. -/
def handleSourceChange (cfg : TrackerConfig) (currentMinutes : ℕ)
    (src : SourceState) (st : SensorState) : UpdateResult :=
  updateValue cfg currentMinutes src st

/-! ## The configuration flow (`config_flow.py`) -/

/-- The regex `TIME_PATTERN` of config_flow.py line 25,
`^([01]\d|2[0-3]):[0-5]\d$`, as a predicate on the five characters of the
candidate string. -/
def matchesTimePattern (s : String) : Bool :=
  match s.toList with
  | [h1, h2, c, m1, m2] =>
      ((h1 == '0' || h1 == '1') && (decide ('0' ≤ h2) && decide (h2 ≤ '9'))
        || (h1 == '2' && (decide ('0' ≤ h2) && decide (h2 ≤ '3'))))
      && c == ':'
      && (decide ('0' ≤ m1) && decide (m1 ≤ '5'))
      && (decide ('0' ≤ m2) && decide (m2 ≤ '9'))
  | _ => false

/-- `_validate_time` (config_flow.py lines 28-31): raise `vol.Invalid` with
the message below when the string does not match `TIME_PATTERN`. -/
def validateTime (value : String) : Except String String :=
  if matchesTimePattern value then Except.ok value
  else Except.error "Invalid time format. Use HH:MM (e.g. 11:00)"

/-- A user submission of the config form: the four collected fields. -/
structure UserInput where
  name : String
  source_entity : String
  peak_start : String
  peak_end : String
deriving DecidableEq, Repr

/-- The unique id built in `async_step_user` (config_flow.py line 76):
`f"{source_entity}_{peak_start}_{peak_end}"`. -/
def uniqueIdOf (u : UserInput) : String :=
  u.source_entity ++ "_" ++ u.peak_start ++ "_" ++ u.peak_end

/-- The possible outcomes of the config-flow user step. -/
inductive FlowResult where
  | createEntry (title : String) (data : UserInput)
  | showForm (errors : List (String × String))
  | abortDuplicate
deriving DecidableEq, Repr

/-- Python's `<=` on strings: lexicographic comparison by code point. -/
def charListLe : List Char → List Char → Bool
  | [], _ => true
  | _ :: _, [] => false
  | a :: as, b :: bs =>
      if a.val < b.val then true
      else if b.val < a.val then false
      else charListLe as bs

/-- Python string comparison `a <= b` lifted to `String`. -/
def strLe (a b : String) : Bool := charListLe a.toList b.toList

/-- `async_step_user` (config_flow.py lines 61-89): with a submission,
reject with the base-level error when `peak_start >= peak_end` (Python
string comparison, i.e. lexicographic on code points); abort on a duplicate
unique id; otherwise create (save) the entry.  Note that `_validate_time`
is never invoked on this path. -/
def asyncStepUser (configured : List String) (input : Option UserInput) :
    FlowResult :=
  match input with
  | none => FlowResult.showForm []
  | some u =>
      if strLe u.peak_end u.peak_start then
        FlowResult.showForm [("base", "peak_start_after_end")]
      else if uniqueIdOf u ∈ configured then
        FlowResult.abortDuplicate
      else
        FlowResult.createEntry u.name u

/-! ## Day traces

A model of one calendar day of trigger deliveries, used for the
monotonicity property: each event carries the minute-of-day at which the
callback runs, the kind of trigger, and the (readable) source reading at
that instant. -/

/-- The three trigger kinds relevant within a day (the midnight reset
delimits days and is modelled as producing the initial state). -/
inductive EventKind where
  | sourceChange
  | peakStart
  | peakEnd
deriving DecidableEq, Repr

/-- One delivered trigger: its minute-of-day, kind, and the source reading
at that instant (assumed readable). -/
structure DayEvent where
  time : ℕ
  kind : EventKind
  reading : ℚ
deriving DecidableEq, Repr

/-- Deliver one event to the sensor: dispatch to the matching handler
(the `snapshot_date` string passed to the peak-start handler is irrelevant
to the computation and fixed to ""). -/
def dayStep (cfg : TrackerConfig) (ev : DayEvent) (st : SensorState) :
    SensorState :=
  let src : SourceState := some (SourceReading.numeric ev.reading)
  match ev.kind with
  | EventKind.sourceChange => (handleSourceChange cfg ev.time src st).state
  | EventKind.peakStart => (handlePeakStart cfg "" src ev.time st).state
  | EventKind.peakEnd => (handlePeakEnd cfg src ev.time st).state

/-- The sequence of sensor states published after each event of a trace
(each event ends in `async_write_ha_state`). -/
def pubs (cfg : TrackerConfig) (st : SensorState) :
    List DayEvent → List SensorState
  | [] => []
  | ev :: rest =>
      let st1 := dayStep cfg ev st
      st1 :: pubs cfg st1 rest

/-- Publish ordering: every value the first state publishes is at most the
value the second publishes. -/
def PubLE (a b : SensorState) : Prop :=
  ∀ x, a.native_value = some x → ∃ y, b.native_value = some y ∧ x ≤ y

/-- A lower bound on every value the tracker can publish at any later
event, given the current snapshots, the last reading `r` and the current
minute `now` (within one day with monotone readings). -/
def lbNext (cfg : TrackerConfig) (snap : SnapshotState) (r : ℚ) (now : ℕ) : ℚ :=
  match snap.snapshot_start, snap.snapshot_end with
  | none, _ => r
  | some s, none => if now < peakEndMinutes cfg then s else r
  | some s, some e => max 0 (r - max 0 (e - s))

/-- The core day invariant: snapshots are bounded by the last reading and
record when (relative to the window bounds) they were taken. -/
structure InvCore (cfg : TrackerConfig) (snap : SnapshotState) (r : ℚ)
    (now : ℕ) : Prop where
  start_le : ∀ s, snap.snapshot_start = some s → s ≤ r
  start_time : snap.snapshot_start ≠ none → peakStartMinutes cfg ≤ now
  end_le : ∀ e, snap.snapshot_end = some e → e ≤ r
  end_time : snap.snapshot_end ≠ none → peakEndMinutes cfg ≤ now

/-- The published-value part of the day invariant: the retained native
value never exceeds (the rounding of) any future publishable value. -/
def InvD (cfg : TrackerConfig) (st : SensorState) (r : ℚ) (now : ℕ) : Prop :=
  ∀ n, st.native_value = some n → n ≤ round3 (lbNext cfg st.snap r now)

/-- Concrete configuration used by the witnesses: the spec's running
example, peak window 11:00-14:00. -/
def cfgA : TrackerConfig := ⟨"sensor.today_energy_import", 11, 0, 14, 0⟩

/-- A day trace in which a source-change callback runs at the peak-end
minute before the peak-end trigger does (a tie the scheduler permits). -/
def evsBad : List DayEvent :=
  [⟨660, EventKind.peakStart, 120⟩, ⟨840, EventKind.sourceChange, 140⟩,
   ⟨840, EventKind.peakEnd, 140⟩]

/-- The spec's §8 scenario as a day trace: readings 100 (08:00), 120
(11:00 peak-start), 135 (12:30), 140 (14:00 peak-end), 150 (15:00). -/
def evsGood : List DayEvent :=
  [⟨480, EventKind.sourceChange, 100⟩, ⟨660, EventKind.peakStart, 120⟩,
   ⟨750, EventKind.sourceChange, 135⟩, ⟨840, EventKind.peakEnd, 140⟩,
   ⟨900, EventKind.sourceChange, 150⟩]

/-! ## Facts about `round3` -/

theorem ratFloor_eq (q : ℚ) : q.floor = ⌊q⌋ := by
  rw [Rat.floor_def, Rat.floor_def']

theorem round3_eq (x : ℚ) :
    round3 x = ((⌊x * 1000 + 1/2⌋ : ℤ) : ℚ) / 1000 := by
  rw [round3, ratFloor_eq]

theorem round3_mono {x y : ℚ} (h : x ≤ y) : round3 x ≤ round3 y := by
  rw [round3_eq, round3_eq]
  have hf : ⌊x * 1000 + 1/2⌋ ≤ ⌊y * 1000 + 1/2⌋ := Int.floor_mono (by linarith)
  have hc : ((⌊x * 1000 + 1/2⌋ : ℤ) : ℚ) ≤ ((⌊y * 1000 + 1/2⌋ : ℤ) : ℚ) :=
    Int.cast_le.mpr hf
  linarith

theorem round3_nonneg {x : ℚ} (h : 0 ≤ x) : 0 ≤ round3 x := by
  rw [round3_eq]
  have h0 : (0 : ℤ) ≤ ⌊x * 1000 + 1/2⌋ := Int.le_floor.mpr (by push_cast; linarith)
  have hc : (0 : ℚ) ≤ ((⌊x * 1000 + 1/2⌋ : ℤ) : ℚ) := by exact_mod_cast h0
  linarith

theorem round3_int (n : ℤ) : round3 (n : ℚ) = n := by
  rw [round3_eq]
  have h : ⌊(n : ℚ) * 1000 + 1/2⌋ = n * 1000 := by
    rw [Int.floor_eq_iff]
    constructor
    · push_cast; linarith
    · push_cast; linarith
  rw [h]
  push_cast
  ring

theorem round3_ofNat (n : ℕ) : round3 (n : ℚ) = n := by
  have h := round3_int (n : ℤ)
  push_cast at h
  exact h

/-- The branch value of `_update_value` is non-negative whenever the total
and the start snapshot are. -/
theorem valueAt_nonneg (cfg : TrackerConfig) (cur : ℕ) (t : ℚ)
    (snap : SnapshotState) (ht : 0 ≤ t)
    (hs : ∀ s, snap.snapshot_start = some s → 0 ≤ s) :
    0 ≤ valueAt cfg cur t snap := by
  by_cases h1 : cur < peakStartMinutes cfg
  · simpa [valueAt, h1] using ht
  · by_cases h2 : cur < peakEndMinutes cfg
    · rcases hst : snap.snapshot_start with _ | s
      · simpa [valueAt, h1, h2, hst] using ht
      · simpa [valueAt, h1, h2, hst] using hs s hst
    · rcases hst : snap.snapshot_start with _ | s
      · simpa [valueAt, h1, h2, hst] using ht
      · rcases hen : snap.snapshot_end with _ | e
        · simpa [valueAt, h1, h2, hst, hen] using ht
        · have hv : valueAt cfg cur t snap = max 0 (t - max 0 (e - s)) := by
            simp [valueAt, h1, h2, hst, hen]
          rw [hv]
          exact le_max_left 0 _

/-! ## The claim theorems -/

/-- Claim C1: at or after peak-end, with both snapshots `s` and `e` set and
a readable raw total `t`, `_update_value` publishes
`max(0, t - max(0, e - s))` rounded to 3 decimal places, with status
"off_peak (after window)".  (The documented configuration invariant
`peak_start < peak_end` is assumed.) -/
theorem updateValue_after_window (cfg : TrackerConfig) (cur : ℕ)
    (src : SourceState) (st : SensorState) (t s e : ℚ)
    (hcfg : peakStartMinutes cfg < peakEndMinutes cfg)
    (hcur : peakEndMinutes cfg ≤ cur)
    (hs : st.snap.snapshot_start = some s)
    (he : st.snap.snapshot_end = some e)
    (ht : getSourceValue src = some t) :
    (updateValue cfg cur src st).state.native_value
        = some (round3 (max 0 (t - max 0 (e - s)))) ∧
    (updateValue cfg cur src st).status = "off_peak (after window)" := by
  have h1 : ¬ cur < peakStartMinutes cfg := by omega
  have h2 : ¬ cur < peakEndMinutes cfg := by omega
  simp [updateValue, computeValue, ht, valueAt, statusAt, h1, h2, hs, he]

/-- Witness for C1: the spec's running scenario, `s = 120`, `e = 140`,
`t = 150` at 15:00 gives `150 - (140 - 120) = 130`. -/
theorem updateValue_after_window_witness :
    (updateValue cfgA 900 (some (SourceReading.numeric 150))
        ⟨⟨some 120, some 140, some "2026-10-12"⟩, some 100⟩).state.native_value
      = some 130 ∧
    (updateValue cfgA 900 (some (SourceReading.numeric 150))
        ⟨⟨some 120, some 140, some "2026-10-12"⟩, some 100⟩).status
      = "off_peak (after window)" := by
  have h := updateValue_after_window cfgA 900 (some (SourceReading.numeric 150))
      ⟨⟨some 120, some 140, some "2026-10-12"⟩, some 100⟩ 150 120 140
      (by norm_num [peakStartMinutes, peakEndMinutes, cfgA])
      (by norm_num [peakEndMinutes, cfgA]) rfl rfl rfl
  rcases h with ⟨h1, h2⟩
  refine ⟨?_, h2⟩
  rw [h1]
  have h130 : round3 (130 : ℚ) = 130 := by
    have hh := round3_ofNat 130
    push_cast at hh
    exact hh
  norm_num [h130]

/-- Claim C2: inside the window with a readable source, `_update_value`
computes exactly `snapshot_start` when it is set and the raw total when it
is unset, publishes its 3-decimal rounding, reports status
"peak window (frozen)", and — once `snapshot_start` is set — the whole
published result is independent of the source reading. -/
theorem updateValue_in_window_frozen (cfg : TrackerConfig) (cur : ℕ)
    (src : SourceState) (st : SensorState) (t : ℚ)
    (h1 : peakStartMinutes cfg ≤ cur) (h2 : cur < peakEndMinutes cfg)
    (ht : getSourceValue src = some t) :
    (∀ s, st.snap.snapshot_start = some s →
        (computeValue cfg cur (some t) st).1 = some s ∧
        (updateValue cfg cur src st).state.native_value = some (round3 s)) ∧
    (st.snap.snapshot_start = none →
        (computeValue cfg cur (some t) st).1 = some t ∧
        (updateValue cfg cur src st).state.native_value = some (round3 t)) ∧
    (updateValue cfg cur src st).status = "peak window (frozen)" ∧
    (∀ src2 t2, getSourceValue src2 = some t2 →
        st.snap.snapshot_start ≠ none →
        updateValue cfg cur src2 st = updateValue cfg cur src st) := by
  have hn1 : ¬ cur < peakStartMinutes cfg := by omega
  refine ⟨?_, ?_, ?_, ?_⟩
  · intro s hs
    constructor
    · simp [computeValue, valueAt, hn1, h2, hs]
    · simp [updateValue, computeValue, ht, valueAt, hn1, h2, hs]
  · intro hs
    constructor
    · simp [computeValue, valueAt, hn1, h2, hs]
    · simp [updateValue, computeValue, ht, valueAt, hn1, h2, hs]
  · simp [updateValue, computeValue, ht, statusAt, hn1, h2]
  · intro src2 t2 ht2 hne
    rcases hs : st.snap.snapshot_start with _ | s
    · exact absurd hs hne
    · simp [updateValue, computeValue, ht, ht2, valueAt, statusAt, hn1, h2, hs]

/-- Witness for C2: at 12:30 with `snapshot_start = 120` the published
value is 120 whether the source reads 135 or 999. -/
theorem updateValue_in_window_frozen_witness :
    (updateValue cfgA 750 (some (SourceReading.numeric 135))
        ⟨⟨some 120, none, some "2026-10-12"⟩, some 120⟩).state.native_value
      = some 120 ∧
    (updateValue cfgA 750 (some (SourceReading.numeric 135))
        ⟨⟨some 120, none, some "2026-10-12"⟩, some 120⟩).status
      = "peak window (frozen)" ∧
    updateValue cfgA 750 (some (SourceReading.numeric 999))
        ⟨⟨some 120, none, some "2026-10-12"⟩, some 120⟩
      = updateValue cfgA 750 (some (SourceReading.numeric 135))
        ⟨⟨some 120, none, some "2026-10-12"⟩, some 120⟩ := by
  have h := updateValue_in_window_frozen cfgA 750
      (some (SourceReading.numeric 135))
      ⟨⟨some 120, none, some "2026-10-12"⟩, some 120⟩ 135
      (by norm_num [peakStartMinutes, cfgA])
      (by norm_num [peakEndMinutes, cfgA]) rfl
  have h120 : round3 (120 : ℚ) = 120 := by
    have hh := round3_ofNat 120
    push_cast at hh
    exact hh
  refine ⟨?_, h.2.2.1, ?_⟩
  · have hv := (h.1 120 rfl).2
    rw [hv, h120]
  · exact h.2.2.2 (some (SourceReading.numeric 999)) 999 rfl (by simp)

/-- Claim C3: on the peak-start trigger with a readable source value `v`,
the new snapshot state has `snapshot_date = today`, `snapshot_start = v`
and `snapshot_end` cleared, and exactly that record is persisted — so a
previous day's leftover end snapshot cannot reach today's after-window
calculation. -/
theorem handlePeakStart_records_and_persists (cfg : TrackerConfig)
    (today : String) (src : SourceState) (cur : ℕ) (st : SensorState) (v : ℚ)
    (hv : getSourceValue src = some v) :
    (handlePeakStart cfg today src cur st).state.snap.snapshot_date
        = some today ∧
    (handlePeakStart cfg today src cur st).state.snap.snapshot_start
        = some v ∧
    (handlePeakStart cfg today src cur st).state.snap.snapshot_end = none ∧
    (handlePeakStart cfg today src cur st).persisted
        = some ⟨some v, none, some today⟩ := by
  simp [handlePeakStart, hv, updateValue, computeValue]

/-- Witness for C3: a state still carrying yesterday's snapshots is fully
replaced and persisted. -/
theorem handlePeakStart_records_and_persists_witness :
    (handlePeakStart cfgA "2026-10-12" (some (SourceReading.numeric 120)) 660
        ⟨⟨some 80, some 95, some "2026-10-11"⟩, some 100⟩).state.snap
      = ⟨some 120, none, some "2026-10-12"⟩ ∧
    (handlePeakStart cfgA "2026-10-12" (some (SourceReading.numeric 120)) 660
        ⟨⟨some 80, some 95, some "2026-10-11"⟩, some 100⟩).persisted
      = some ⟨some 120, none, some "2026-10-12"⟩ := by
  have h := handlePeakStart_records_and_persists cfgA "2026-10-12"
      (some (SourceReading.numeric 120)) 660
      ⟨⟨some 80, some 95, some "2026-10-11"⟩, some 100⟩ 120 rfl
  rcases h with ⟨h1, h2, h3, h4⟩
  refine ⟨?_, h4⟩
  cases hsnap : (handlePeakStart cfgA "2026-10-12"
      (some (SourceReading.numeric 120)) 660
      ⟨⟨some 80, some 95, some "2026-10-11"⟩, some 100⟩).state.snap
  simp_all

/-- Counterexample to claim C5 as stated: with a negative source reading
(`float("-1")` parses fine) the before-window branch passes the value
through and the sensor publishes a negative number. -/
theorem updateValue_negative_passthrough :
    (updateValue cfgA 480 (some (SourceReading.numeric (-1)))
        ⟨⟨none, none, none⟩, none⟩).state.native_value = some (-1) ∧
    ((-1 : ℚ) < 0) := by
  have hneg : round3 ((-1 : ℚ)) = -1 := by
    have hh := round3_int (-1)
    push_cast at hh
    exact hh
  constructor
  · have h1 : (480 : ℕ) < peakStartMinutes cfgA := by
      norm_num [peakStartMinutes, cfgA]
    simp [updateValue, computeValue, getSourceValue, valueAt, h1, hneg]
  · norm_num

/-- Claim C5 (amended): the published value is never negative provided the
source reading, the start snapshot and the retained native value are
non-negative. -/
theorem updateValue_nonneg (cfg : TrackerConfig) (cur : ℕ)
    (src : SourceState) (st : SensorState)
    (hsnap : ∀ s, st.snap.snapshot_start = some s → 0 ≤ s)
    (hnat : ∀ n, st.native_value = some n → 0 ≤ n)
    (hsrc : ∀ t, getSourceValue src = some t → 0 ≤ t) :
    ∀ m, (updateValue cfg cur src st).state.native_value = some m → 0 ≤ m := by
  intro m hm
  rcases h : getSourceValue src with _ | t
  · rcases hn : st.native_value with _ | n
    · simp [updateValue, computeValue, h, hn] at hm
    · have hmn : round3 n = m := by
        simpa [updateValue, computeValue, h, hn] using hm
      rw [← hmn]
      exact round3_nonneg (hnat n hn)
  · have hmv : round3 (valueAt cfg cur t st.snap) = m := by
      simpa [updateValue, computeValue, h] using hm
    rw [← hmv]
    exact round3_nonneg (valueAt_nonneg cfg cur t st.snap (hsrc t h) hsnap)

/-- Witness for the amended C5: at the concrete non-negative input the
published value is 100, and the amended theorem yields its
non-negativity. -/
theorem updateValue_nonneg_witness :
    (updateValue cfgA 480 (some (SourceReading.numeric 100))
        ⟨⟨some 120, some 140, none⟩, some 130⟩).state.native_value
      = some 100 ∧ (0 : ℚ) ≤ 100 := by
  have h100 : round3 (100 : ℚ) = 100 := by
    have hh := round3_ofNat 100
    push_cast at hh
    exact hh
  have hv : valueAt cfgA 480 100 ⟨some 120, some 140, none⟩ = 100 := by
    simp [valueAt, show (480 : ℕ) < peakStartMinutes cfgA by
      norm_num [peakStartMinutes, cfgA]]
  have hnat : (updateValue cfgA 480 (some (SourceReading.numeric 100))
      ⟨⟨some 120, some 140, none⟩, some 130⟩).state.native_value
      = some 100 := by
    simp [updateValue, computeValue, getSourceValue, hv, h100]
  refine ⟨hnat, ?_⟩
  exact updateValue_nonneg cfgA 480 (some (SourceReading.numeric 100))
      ⟨⟨some 120, some 140, none⟩, some 130⟩
      (by intro s hs; cases hs; norm_num)
      (by intro n hn; cases hn; norm_num)
      (by intro t ht; cases ht; norm_num)
      100 hnat

/-- Claim C6: with an unreadable source, `_update_value` keeps the
published value unchanged (given the system invariant that the retained
value is an already-rounded publish, which the code re-rounds — a no-op),
keeps the snapshots untouched, and reports status "unavailable".  The
embedding is total: no exception is raised (`_get_source_value` returns
`None` instead of raising). -/
theorem updateValue_unavailable_keeps_value (cfg : TrackerConfig) (cur : ℕ)
    (src : SourceState) (st : SensorState)
    (hsrc : getSourceValue src = none)
    (hr : ∀ n, st.native_value = some n → round3 n = n) :
    (updateValue cfg cur src st).state.native_value = st.native_value ∧
    (updateValue cfg cur src st).status = "unavailable" ∧
    (updateValue cfg cur src st).state.snap = st.snap := by
  rcases hn : st.native_value with _ | n
  · simp [updateValue, computeValue, hsrc, hn]
  · simp [updateValue, computeValue, hsrc, hn, hr n hn]

/-- Witness for C6: the source goes "unavailable" mid-window and the last
published 120 is retained. -/
theorem updateValue_unavailable_keeps_value_witness :
    (updateValue cfgA 750 (some SourceReading.unavailable)
        ⟨⟨some 120, none, some "2026-10-12"⟩, some 120⟩).state.native_value
      = some 120 ∧
    (updateValue cfgA 750 (some SourceReading.unavailable)
        ⟨⟨some 120, none, some "2026-10-12"⟩, some 120⟩).status
      = "unavailable" := by
  have h120 : round3 (120 : ℚ) = 120 := by
    have hh := round3_ofNat 120
    push_cast at hh
    exact hh
  have h := updateValue_unavailable_keeps_value cfgA 750
      (some SourceReading.unavailable)
      ⟨⟨some 120, none, some "2026-10-12"⟩, some 120⟩ rfl
      (by intro n hn; cases hn; exact h120)
  exact ⟨h.1, h.2.1⟩

/-- Claim C7: the midnight trigger clears both snapshots, advances
`snapshot_date` to the new day and persists exactly that record; any
subsequent before-window recompute with readable total `t` computes
exactly `t` and publishes its 3-decimal rounding with the before-window
status. -/
theorem handleMidnightReset_clears (cfg : TrackerConfig) (today : String)
    (src : SourceState) (cur : ℕ) (st : SensorState) :
    (handleMidnightReset cfg today src cur st).state.snap
      = ⟨none, none, some today⟩ ∧
    (handleMidnightReset cfg today src cur st).persisted
      = some ⟨none, none, some today⟩ ∧
    (∀ cur2 src2 t, cur2 < peakStartMinutes cfg →
      getSourceValue src2 = some t →
      (computeValue cfg cur2 (some t)
          (handleMidnightReset cfg today src cur st).state).1 = some t ∧
      (updateValue cfg cur2 src2
          (handleMidnightReset cfg today src cur st).state).state.native_value
        = some (round3 t) ∧
      (updateValue cfg cur2 src2
          (handleMidnightReset cfg today src cur st).state).status
        = "off_peak (before window)") := by
  refine ⟨?_, ?_, ?_⟩
  · simp [handleMidnightReset, updateValue, computeValue]
  · simp [handleMidnightReset]
  · intro cur2 src2 t h2 ht
    have hsnap : (handleMidnightReset cfg today src cur st).state.snap
        = ⟨none, none, some today⟩ := by
      simp [handleMidnightReset, updateValue, computeValue]
    refine ⟨?_, ?_, ?_⟩
    · simp [computeValue, valueAt, hsnap, h2]
    · simp [updateValue, computeValue, ht, valueAt, hsnap, h2]
    · simp [updateValue, computeValue, ht, statusAt, hsnap, h2]

/-- Witness for C7: resetting at 00:00:02 clears yesterday's snapshots and
an 08:00 read of 100 publishes 100. -/
theorem handleMidnightReset_clears_witness :
    (handleMidnightReset cfgA "2026-10-13" (some (SourceReading.numeric 160))
        2 ⟨⟨some 120, some 140, some "2026-10-12"⟩, some 150⟩).state.snap
      = ⟨none, none, some "2026-10-13"⟩ ∧
    (updateValue cfgA 480 (some (SourceReading.numeric 100))
        (handleMidnightReset cfgA "2026-10-13"
          (some (SourceReading.numeric 160)) 2
          ⟨⟨some 120, some 140, some "2026-10-12"⟩, some 150⟩).state
        ).state.native_value = some 100 := by
  have h := handleMidnightReset_clears cfgA "2026-10-13"
      (some (SourceReading.numeric 160)) 2
      ⟨⟨some 120, some 140, some "2026-10-12"⟩, some 150⟩
  have h100 : round3 (100 : ℚ) = 100 := by
    have hh := round3_ofNat 100
    push_cast at hh
    exact hh
  refine ⟨h.1, ?_⟩
  have h3 := (h.2.2 480 (some (SourceReading.numeric 100)) 100
      (by norm_num [peakStartMinutes, cfgA]) rfl).2.1
  rw [h3, h100]

/-- Claim C9: `_update_value` never consults `snapshot_date` — two states
differing only in the date yield the same published value, status and
attributes, so snapshots surviving from a previous day are used as if they
were today's. -/
theorem updateValue_ignores_snapshot_date (cfg : TrackerConfig) (cur : ℕ)
    (src : SourceState) (sS sE : Option ℚ) (d1 d2 : Option String)
    (nv : Option ℚ) :
    (updateValue cfg cur src ⟨⟨sS, sE, d1⟩, nv⟩).state.native_value
      = (updateValue cfg cur src ⟨⟨sS, sE, d2⟩, nv⟩).state.native_value ∧
    (updateValue cfg cur src ⟨⟨sS, sE, d1⟩, nv⟩).status
      = (updateValue cfg cur src ⟨⟨sS, sE, d2⟩, nv⟩).status ∧
    (updateValue cfg cur src ⟨⟨sS, sE, d1⟩, nv⟩).attributes
      = (updateValue cfg cur src ⟨⟨sS, sE, d2⟩, nv⟩).attributes := by
  rcases h : getSourceValue src with _ | t <;>
    simp [updateValue, computeValue, h, valueAt, statusAt]

/-- Claim C10: with an unreadable source and no previously computed or
restored value, `_update_value` leaves the published value unset (no
default 0 and no rounding is applied) and reports "unavailable". -/
theorem updateValue_no_value_stays_none (cfg : TrackerConfig) (cur : ℕ)
    (src : SourceState) (snap : SnapshotState)
    (hsrc : getSourceValue src = none) :
    (updateValue cfg cur src ⟨snap, none⟩).state.native_value = none ∧
    (updateValue cfg cur src ⟨snap, none⟩).status = "unavailable" := by
  simp [updateValue, computeValue, hsrc]

/-- Witness for C10: a missing source entity on first run publishes
nothing. -/
theorem updateValue_no_value_stays_none_witness :
    (updateValue cfgA 480 none
        ⟨⟨none, none, none⟩, none⟩).state.native_value = none ∧
    (updateValue cfgA 480 none ⟨⟨none, none, none⟩, none⟩).status
      = "unavailable" :=
  updateValue_no_value_stays_none cfgA 480 none ⟨none, none, none⟩ rfl

/-- Claim C8: `async_step_user` saves a submission whose time strings do
not match `TIME_PATTERN` — the validator `_validate_time` exists (and
would reject "25:99") but is never invoked by the flow, so the malformed
configuration is accepted whenever `peak_start < peak_end` as strings. -/
theorem configFlow_saves_malformed_time :
    matchesTimePattern "25:99" = false ∧
    validateTime "25:99"
      = Except.error "Invalid time format. Use HH:MM (e.g. 11:00)" ∧
    asyncStepUser []
        (some ⟨"Off-Peak Energy", "sensor.today_energy_import",
               "25:99", "26:00"⟩)
      = FlowResult.createEntry "Off-Peak Energy"
          ⟨"Off-Peak Energy", "sensor.today_energy_import",
           "25:99", "26:00"⟩ := by
  refine ⟨by decide, by rfl, by rfl⟩

/-! ## The day-trace monotonicity development (claim C4)

The claim quantifies over every time-ordered interleaving of triggers
within one day with monotonically non-decreasing readable source values.
The lemmas below evaluate one delivered event, establish the day
invariant, and chain it along a trace. -/

theorem valueAt_start_none (cfg : TrackerConfig) (cur : ℕ) (t : ℚ)
    (snap : SnapshotState) (h : snap.snapshot_start = none) :
    valueAt cfg cur t snap = t := by
  unfold valueAt
  by_cases h1 : cur < peakStartMinutes cfg
  · simp [h1]
  · by_cases h2 : cur < peakEndMinutes cfg
    · simp [h1, h2, h]
    · simp [h1, h2, h]

theorem valueAt_in_window (cfg : TrackerConfig) (cur : ℕ) (t s : ℚ)
    (snap : SnapshotState) (h1 : ¬ cur < peakStartMinutes cfg)
    (h2 : cur < peakEndMinutes cfg) (hs : snap.snapshot_start = some s) :
    valueAt cfg cur t snap = s := by
  simp [valueAt, h1, h2, hs]

theorem valueAt_after_both (cfg : TrackerConfig) (cur : ℕ) (t s e : ℚ)
    (snap : SnapshotState) (h1 : ¬ cur < peakStartMinutes cfg)
    (h2 : ¬ cur < peakEndMinutes cfg) (hs : snap.snapshot_start = some s)
    (he : snap.snapshot_end = some e) :
    valueAt cfg cur t snap = max 0 (t - max 0 (e - s)) := by
  simp [valueAt, h1, h2, hs, he]

theorem valueAt_after_missing (cfg : TrackerConfig) (cur : ℕ) (t s : ℚ)
    (snap : SnapshotState) (h1 : ¬ cur < peakStartMinutes cfg)
    (h2 : ¬ cur < peakEndMinutes cfg) (hs : snap.snapshot_start = some s)
    (he : snap.snapshot_end = none) :
    valueAt cfg cur t snap = t := by
  simp [valueAt, h1, h2, hs, he]

theorem updateValue_numeric_state (cfg : TrackerConfig) (cur : ℕ) (t : ℚ)
    (st : SensorState) :
    (updateValue cfg cur (some (SourceReading.numeric t)) st).state
      = ⟨st.snap, some (round3 (valueAt cfg cur t st.snap))⟩ := by
  simp [updateValue, computeValue, getSourceValue]

theorem dayStep_sourceChange (cfg : TrackerConfig) (tau : ℕ) (t : ℚ)
    (st : SensorState) :
    dayStep cfg ⟨tau, EventKind.sourceChange, t⟩ st
      = ⟨st.snap, some (round3 (valueAt cfg tau t st.snap))⟩ := by
  simp [dayStep, handleSourceChange, updateValue_numeric_state]

theorem dayStep_peakStart (cfg : TrackerConfig) (tau : ℕ) (t : ℚ)
    (st : SensorState) :
    dayStep cfg ⟨tau, EventKind.peakStart, t⟩ st
      = ⟨⟨some t, none, some ""⟩,
         some (round3 (valueAt cfg tau t ⟨some t, none, some ""⟩))⟩ := by
  have h : (handlePeakStart cfg "" (some (SourceReading.numeric t)) tau st).state
      = (updateValue cfg tau (some (SourceReading.numeric t))
          ⟨⟨some t, none, some ""⟩, st.native_value⟩).state := by
    simp [handlePeakStart, getSourceValue]
  simp [dayStep, h, updateValue_numeric_state]

theorem dayStep_peakEnd (cfg : TrackerConfig) (tau : ℕ) (t : ℚ)
    (st : SensorState) :
    dayStep cfg ⟨tau, EventKind.peakEnd, t⟩ st
      = ⟨⟨st.snap.snapshot_start, some t, st.snap.snapshot_date⟩,
         some (round3 (valueAt cfg tau t
           ⟨st.snap.snapshot_start, some t, st.snap.snapshot_date⟩))⟩ := by
  have h : (handlePeakEnd cfg (some (SourceReading.numeric t)) tau st).state
      = (updateValue cfg tau (some (SourceReading.numeric t))
          ⟨⟨st.snap.snapshot_start, some t, st.snap.snapshot_date⟩,
           st.native_value⟩).state := by
    simp [handlePeakEnd, getSourceValue]
  simp [dayStep, h, updateValue_numeric_state]

theorem InvCore.weaken {cfg : TrackerConfig} {snap : SnapshotState}
    {r t : ℚ} {now tau : ℕ} (hC : InvCore cfg snap r now)
    (hr : r ≤ t) (hn : now ≤ tau) : InvCore cfg snap t tau where
  start_le := fun s hs => le_trans (hC.start_le s hs) hr
  start_time := fun h => le_trans (hC.start_time h) hn
  end_le := fun e he => le_trans (hC.end_le e he) hr
  end_time := fun h => le_trans (hC.end_time h) hn

theorem dayStep_spec_of (cfg : TrackerConfig) (st st1 : SensorState)
    (snap1 : SnapshotState) (v r t : ℚ) (now tau : ℕ)
    (hstep : st1 = ⟨snap1, some (round3 v)⟩)
    (hCore : InvCore cfg snap1 t tau)
    (hlb_le : lbNext cfg st.snap r now ≤ v)
    (hlb1 : v ≤ lbNext cfg snap1 t tau) :
    InvCore cfg st1.snap t tau ∧ InvD cfg st1 t tau ∧
    (∃ w, st1.native_value = some w) ∧
    (InvD cfg st r now → ∀ x, st.native_value = some x →
      ∃ y, st1.native_value = some y ∧ x ≤ y) := by
  subst hstep
  refine ⟨hCore, ?_, ⟨_, rfl⟩, ?_⟩
  · intro n hn
    injection hn with h
    rw [← h]
    exact round3_mono hlb1
  · intro hD x hx
    exact ⟨round3 v, rfl, le_trans (hD x hx) (round3_mono hlb_le)⟩

/-- One delivered event preserves the day invariant, always publishes a
value, and never publishes below the previously retained value. -/
theorem dayStep_spec (cfg : TrackerConfig) (ev : DayEvent) (st : SensorState)
    (r : ℚ) (now : ℕ)
    (hcfg : peakStartMinutes cfg < peakEndMinutes cfg)
    (hC : InvCore cfg st.snap r now)
    (htime : now ≤ ev.time) (hread : r ≤ ev.reading)
    (hkS : ev.kind = EventKind.peakStart → ev.time = peakStartMinutes cfg)
    (hkE : ev.kind = EventKind.peakEnd →
        ev.time = peakEndMinutes cfg ∧ now < peakEndMinutes cfg) :
    InvCore cfg (dayStep cfg ev st).snap ev.reading ev.time ∧
    InvD cfg (dayStep cfg ev st) ev.reading ev.time ∧
    (∃ w, (dayStep cfg ev st).native_value = some w) ∧
    (InvD cfg st r now → ∀ x, st.native_value = some x →
      ∃ y, (dayStep cfg ev st).native_value = some y ∧ x ≤ y) := by
  obtain ⟨tau, k, t⟩ := ev
  dsimp only at htime hread hkS hkE ⊢
  cases k with
  | sourceChange =>
      have hstep := dayStep_sourceChange cfg tau t st
      rcases hS : st.snap.snapshot_start with _ | s
      · have hv : valueAt cfg tau t st.snap = t :=
          valueAt_start_none cfg tau t st.snap hS
        rw [hv] at hstep
        refine dayStep_spec_of cfg st _ st.snap t r t now tau hstep
            (hC.weaken hread htime) ?_ ?_
        · have hl : lbNext cfg st.snap r now = r := by
            rcases hE : st.snap.snapshot_end with _ | e <;> simp [lbNext, hS, hE]
          rw [hl]; exact hread
        · have hl : lbNext cfg st.snap t tau = t := by
            rcases hE : st.snap.snapshot_end with _ | e <;> simp [lbNext, hS, hE]
          rw [hl]
      · rcases hE : st.snap.snapshot_end with _ | e
        · have hpsm : peakStartMinutes cfg ≤ now := by
            apply hC.start_time
            rw [hS]
            simp
          have hn1 : ¬ tau < peakStartMinutes cfg := by omega
          by_cases h2 : tau < peakEndMinutes cfg
          · have hv : valueAt cfg tau t st.snap = s :=
              valueAt_in_window cfg tau t s st.snap hn1 h2 hS
            rw [hv] at hstep
            have hnow2 : now < peakEndMinutes cfg := by omega
            refine dayStep_spec_of cfg st _ st.snap s r t now tau hstep
                (hC.weaken hread htime) ?_ ?_
            · have hl : lbNext cfg st.snap r now = s := by
                simp [lbNext, hS, hE, if_pos hnow2]
              rw [hl]
            · have hl : lbNext cfg st.snap t tau = s := by
                simp [lbNext, hS, hE, if_pos h2]
              rw [hl]
          · have hv : valueAt cfg tau t st.snap = t :=
              valueAt_after_missing cfg tau t s st.snap hn1 h2 hS hE
            rw [hv] at hstep
            refine dayStep_spec_of cfg st _ st.snap t r t now tau hstep
                (hC.weaken hread htime) ?_ ?_
            · have hsr : s ≤ r := hC.start_le s hS
              have hl : lbNext cfg st.snap r now =
                  if now < peakEndMinutes cfg then s else r := by
                simp [lbNext, hS, hE]
              rw [hl]
              split_ifs <;> linarith
            · have hl : lbNext cfg st.snap t tau = t := by
                simp [lbNext, hS, hE, if_neg h2]
              rw [hl]
        · have hpem : peakEndMinutes cfg ≤ now := by
            apply hC.end_time
            rw [hE]
            simp
          have hn1 : ¬ tau < peakStartMinutes cfg := by omega
          have hn2 : ¬ tau < peakEndMinutes cfg := by omega
          have hv : valueAt cfg tau t st.snap = max 0 (t - max 0 (e - s)) :=
            valueAt_after_both cfg tau t s e st.snap hn1 hn2 hS hE
          rw [hv] at hstep
          refine dayStep_spec_of cfg st _ st.snap _ r t now tau hstep
              (hC.weaken hread htime) ?_ ?_
          · have hl : lbNext cfg st.snap r now = max 0 (r - max 0 (e - s)) := by
              simp [lbNext, hS, hE]
            rw [hl]
            exact max_le_max le_rfl (by linarith)
          · have hl : lbNext cfg st.snap t tau = max 0 (t - max 0 (e - s)) := by
              simp [lbNext, hS, hE]
            rw [hl]
  | peakStart =>
      have htau : tau = peakStartMinutes cfg := hkS rfl
      have hstep := dayStep_peakStart cfg tau t st
      have hn1 : ¬ tau < peakStartMinutes cfg := by omega
      have h2 : tau < peakEndMinutes cfg := by omega
      have hv : valueAt cfg tau t ⟨some t, none, some ""⟩ = t :=
        valueAt_in_window cfg tau t t ⟨some t, none, some ""⟩ hn1 h2 rfl
      rw [hv] at hstep
      refine dayStep_spec_of cfg st _ ⟨some t, none, some ""⟩ t r t now tau hstep
          ?_ ?_ ?_
      · constructor
        · intro s2 hs2
          injection hs2 with h
          rw [← h]
        · intro _
          omega
        · intro e2 he2
          exact Option.noConfusion he2
        · intro h
          exact absurd rfl h
      · rcases hS : st.snap.snapshot_start with _ | s
        · have hl : lbNext cfg st.snap r now = r := by
            rcases hE : st.snap.snapshot_end with _ | e <;> simp [lbNext, hS, hE]
          rw [hl]; exact hread
        · rcases hE : st.snap.snapshot_end with _ | e
          · have hsr : s ≤ r := hC.start_le s hS
            have hl : lbNext cfg st.snap r now =
                if now < peakEndMinutes cfg then s else r := by
              simp [lbNext, hS, hE]
            rw [hl]
            split_ifs <;> linarith
          · exfalso
            have hpem : peakEndMinutes cfg ≤ now := by
              apply hC.end_time
              rw [hE]
              simp
            omega
      · have hl : lbNext cfg ⟨some t, none, some ""⟩ t tau = t := by
          simp [lbNext, if_pos h2]
        rw [hl]
  | peakEnd =>
      obtain ⟨htau, hnow⟩ := hkE rfl
      have hstep := dayStep_peakEnd cfg tau t st
      have hEnone : st.snap.snapshot_end = none := by
        rcases hE : st.snap.snapshot_end with _ | e
        · rfl
        · exfalso
          have hpem : peakEndMinutes cfg ≤ now := by
            apply hC.end_time
            rw [hE]
            simp
          omega
      have hn1 : ¬ tau < peakStartMinutes cfg := by omega
      have hn2 : ¬ tau < peakEndMinutes cfg := by omega
      rcases hS : st.snap.snapshot_start with _ | s
      · rw [hS] at hstep
        have hv : valueAt cfg tau t ⟨none, some t, st.snap.snapshot_date⟩ = t :=
          valueAt_start_none cfg tau t ⟨none, some t, st.snap.snapshot_date⟩ rfl
        rw [hv] at hstep
        refine dayStep_spec_of cfg st _ ⟨none, some t, st.snap.snapshot_date⟩
            t r t now tau hstep ?_ ?_ ?_
        · constructor
          · intro s2 hs2
            exact Option.noConfusion hs2
          · intro h
            exact absurd rfl h
          · intro e2 he2
            injection he2 with h
            rw [← h]
          · intro _
            omega
        · have hl : lbNext cfg st.snap r now = r := by
            simp [lbNext, hS, hEnone]
          rw [hl]; exact hread
        · have hl : lbNext cfg ⟨none, some t, st.snap.snapshot_date⟩ t tau = t := by
            simp [lbNext]
          rw [hl]
      · rw [hS] at hstep
        have hsr : s ≤ r := hC.start_le s hS
        have hst2 : s ≤ t := by linarith
        have hv : valueAt cfg tau t ⟨some s, some t, st.snap.snapshot_date⟩
            = max 0 (t - max 0 (t - s)) :=
          valueAt_after_both cfg tau t s t
            ⟨some s, some t, st.snap.snapshot_date⟩ hn1 hn2 rfl rfl
        rw [hv] at hstep
        refine dayStep_spec_of cfg st _ ⟨some s, some t, st.snap.snapshot_date⟩
            (max 0 (t - max 0 (t - s))) r t now tau hstep ?_ ?_ ?_
        · constructor
          · intro s2 hs2
            injection hs2 with h
            rw [← h]
            exact hst2
          · intro _
            have hpsm : peakStartMinutes cfg ≤ now := by
              apply hC.start_time
              rw [hS]
              simp
            omega
          · intro e2 he2
            injection he2 with h
            rw [← h]
          · intro _
            omega
        · have hl : lbNext cfg st.snap r now = s := by
            simp [lbNext, hS, hEnone, if_pos hnow]
          rw [hl]
          have hmax : max 0 (t - s) = t - s := max_eq_right (by linarith)
          rw [hmax]
          have h3 : t - (t - s) = s := by ring
          rw [h3]
          exact le_max_right 0 s
        · have hl : lbNext cfg ⟨some s, some t, st.snap.snapshot_date⟩ t tau
              = max 0 (t - max 0 (t - s)) := by
            simp [lbNext]
          rw [hl]

/-- Chaining `dayStep_spec` along a trace from any state satisfying the
day invariant. -/
theorem pubs_chain (cfg : TrackerConfig) (evs : List DayEvent) :
    ∀ (st : SensorState) (r : ℚ) (now : ℕ),
    peakStartMinutes cfg < peakEndMinutes cfg →
    InvCore cfg st.snap r now → InvD cfg st r now →
    (∀ e ∈ evs, now ≤ e.time ∧ r ≤ e.reading) →
    List.Pairwise (fun a b => a.time ≤ b.time ∧ a.reading ≤ b.reading) evs →
    (∀ e ∈ evs, e.kind = EventKind.peakStart →
        e.time = peakStartMinutes cfg) →
    (∀ e ∈ evs, e.kind = EventKind.peakEnd →
        e.time = peakEndMinutes cfg) →
    (∀ e ∈ evs, e.kind = EventKind.peakEnd → now < peakEndMinutes cfg) →
    List.Pairwise (fun a b => b.kind = EventKind.peakEnd →
        a.time < peakEndMinutes cfg) evs →
    List.Chain PubLE st (pubs cfg st evs) ∧
    (∀ p ∈ pubs cfg st evs, ∃ v, p.native_value = some v) := by
  induction evs with
  | nil =>
      intro st r now _ _ _ _ _ _ _ _ _
      exact ⟨List.Chain.nil, by simp [pubs]⟩
  | cons ev rest ih =>
      intro st r now hcfg hC hD hb hpair hkS hkE hfirst hpe
      have hbe := hb ev (List.mem_cons_self ev rest)
      obtain ⟨hC1, hD1, ⟨w, hw⟩, hlink⟩ := dayStep_spec cfg ev st r now hcfg hC
          hbe.1 hbe.2
          (fun hk => hkS ev (List.mem_cons_self ev rest) hk)
          (fun hk => ⟨hkE ev (List.mem_cons_self ev rest) hk,
                      hfirst ev (List.mem_cons_self ev rest) hk⟩)
      have hpair1 := List.pairwise_cons.mp hpair
      have hpe1 := List.pairwise_cons.mp hpe
      have hrest := ih (dayStep cfg ev st) ev.reading ev.time hcfg hC1 hD1
          (fun e he => hpair1.1 e he)
          hpair1.2
          (fun e he hk => hkS e (List.mem_cons_of_mem ev he) hk)
          (fun e he hk => hkE e (List.mem_cons_of_mem ev he) hk)
          (fun e he hk => hpe1.1 e he hk)
          hpe1.2
      constructor
      · show List.Chain PubLE st
          (dayStep cfg ev st :: pubs cfg (dayStep cfg ev st) rest)
        exact List.Chain.cons (hlink hD) hrest.1
      · intro p hp
        have hp2 : p = dayStep cfg ev st ∨
            p ∈ pubs cfg (dayStep cfg ev st) rest := by
          simpa [pubs] using hp
        rcases hp2 with h | h
        · exact ⟨w, h ▸ hw⟩
        · exact hrest.2 p h

/-- Claim C4 (amended): within one calendar day — starting from the
cleared snapshot state the midnight reset establishes — along any
time-ordered trace of source-change / peak-start / peak-end deliveries
with readable, monotonically non-decreasing source readings, where the
scheduled triggers fire at their configured minutes and the peak-end
trigger is processed before any other trigger at or after the peak-end
minute, every event publishes a value and the published values never
decrease from one publish to the next. -/
theorem publishes_monotone (cfg : TrackerConfig) (st0 : SensorState)
    (evs : List DayEvent)
    (hcfg : peakStartMinutes cfg < peakEndMinutes cfg)
    (hs0 : st0.snap.snapshot_start = none)
    (he0 : st0.snap.snapshot_end = none)
    (hpair : List.Pairwise
        (fun a b => a.time ≤ b.time ∧ a.reading ≤ b.reading) evs)
    (hkS : ∀ e ∈ evs, e.kind = EventKind.peakStart →
        e.time = peakStartMinutes cfg)
    (hkE : ∀ e ∈ evs, e.kind = EventKind.peakEnd →
        e.time = peakEndMinutes cfg)
    (hpe : List.Pairwise (fun a b => b.kind = EventKind.peakEnd →
        a.time < peakEndMinutes cfg) evs) :
    List.Chain' PubLE (pubs cfg st0 evs) ∧
    (∀ p ∈ pubs cfg st0 evs, ∃ v, p.native_value = some v) := by
  cases evs with
  | nil => exact ⟨by simp [pubs], by simp [pubs]⟩
  | cons ev rest =>
      have hC0 : InvCore cfg st0.snap ev.reading 0 := by
        constructor
        · intro s hs
          rw [hs0] at hs
          exact Option.noConfusion hs
        · intro h
          exact absurd hs0 h
        · intro e he
          rw [he0] at he
          exact Option.noConfusion he
        · intro h
          exact absurd he0 h
      obtain ⟨hC1, hD1, ⟨w, hw⟩, _⟩ := dayStep_spec cfg ev st0 ev.reading 0 hcfg
          hC0 (Nat.zero_le _) le_rfl
          (fun hk => hkS ev (List.mem_cons_self ev rest) hk)
          (fun hk => ⟨hkE ev (List.mem_cons_self ev rest) hk, by omega⟩)
      have hpair1 := List.pairwise_cons.mp hpair
      have hpe1 := List.pairwise_cons.mp hpe
      have hrest := pubs_chain cfg rest (dayStep cfg ev st0) ev.reading ev.time
          hcfg hC1 hD1
          (fun e he => hpair1.1 e he)
          hpair1.2
          (fun e he hk => hkS e (List.mem_cons_of_mem ev he) hk)
          (fun e he hk => hkE e (List.mem_cons_of_mem ev he) hk)
          (fun e he hk => hpe1.1 e he hk)
          hpe1.2
      constructor
      · show List.Chain' PubLE
          (dayStep cfg ev st0 :: pubs cfg (dayStep cfg ev st0) rest)
        exact hrest.1
      · intro p hp
        have hp2 : p = dayStep cfg ev st0 ∨
            p ∈ pubs cfg (dayStep cfg ev st0) rest := by
          simpa [pubs] using hp
        rcases hp2 with h | h
        · exact ⟨w, h ▸ hw⟩
        · exact hrest.2 p h

/-- Counterexample to claim C4 as stated: on the time-ordered day trace
`evsBad` (peak-start at 11:00 reading 120, then at the peak-end minute a
source-change reading 140 processed before the peak-end trigger reading
140) with monotone readings, daily triggers at their configured minutes
and cleared initial snapshots, the tracker publishes 120, 140, 120 — a
decrease from 140 to 120. -/
theorem publishes_drop_at_peak_end_tie :
    List.Pairwise (fun a b => a.time ≤ b.time ∧ a.reading ≤ b.reading)
      evsBad ∧
    (∀ e ∈ evsBad, e.kind = EventKind.peakStart →
        e.time = peakStartMinutes cfgA) ∧
    (∀ e ∈ evsBad, e.kind = EventKind.peakEnd →
        e.time = peakEndMinutes cfgA) ∧
    (pubs cfgA ⟨⟨none, none, none⟩, none⟩ evsBad).map
        SensorState.native_value
      = [some 120, some 140, some 120] ∧
    ¬ List.Chain' PubLE (pubs cfgA ⟨⟨none, none, none⟩, none⟩ evsBad) := by
  have h120 : round3 (120 : ℚ) = 120 := by
    have hh := round3_ofNat 120
    push_cast at hh
    exact hh
  have h140 : round3 (140 : ℚ) = 140 := by
    have hh := round3_ofNat 140
    push_cast at hh
    exact hh
  have hb1 : ¬ (840 : ℕ) < peakStartMinutes cfgA := by
    norm_num [peakStartMinutes, cfgA]
  have hb2 : ¬ (840 : ℕ) < peakEndMinutes cfgA := by
    norm_num [peakEndMinutes, cfgA]
  have e1 : dayStep cfgA ⟨660, EventKind.peakStart, 120⟩
      ⟨⟨none, none, none⟩, none⟩
      = ⟨⟨some 120, none, some ""⟩, some 120⟩ := by
    rw [dayStep_peakStart]
    rw [valueAt_in_window cfgA 660 120 120 ⟨some 120, none, some ""⟩
        (by norm_num [peakStartMinutes, cfgA])
        (by norm_num [peakEndMinutes, cfgA]) rfl]
    rw [h120]
  have e2 : dayStep cfgA ⟨840, EventKind.sourceChange, 140⟩
      ⟨⟨some 120, none, some ""⟩, some 120⟩
      = ⟨⟨some 120, none, some ""⟩, some 140⟩ := by
    rw [dayStep_sourceChange]
    rw [valueAt_after_missing cfgA 840 140 120 ⟨some 120, none, some ""⟩
        hb1 hb2 rfl rfl]
    rw [h140]
  have e3 : dayStep cfgA ⟨840, EventKind.peakEnd, 140⟩
      ⟨⟨some 120, none, some ""⟩, some 140⟩
      = ⟨⟨some 120, some 140, some ""⟩, some 120⟩ := by
    rw [dayStep_peakEnd]
    rw [valueAt_after_both cfgA 840 140 120 140
        ⟨some 120, some 140, some ""⟩ hb1 hb2 rfl rfl]
    have hv : max (0 : ℚ) (140 - max 0 ((140 : ℚ) - 120)) = 120 := by
      rw [max_eq_right (by norm_num : (0 : ℚ) ≤ 140 - 120)]
      rw [show (140 : ℚ) - (140 - 120) = 120 by ring]
      exact max_eq_right (by norm_num)
    rw [hv, h120]
  have hpubs : pubs cfgA ⟨⟨none, none, none⟩, none⟩ evsBad
      = [⟨⟨some 120, none, some ""⟩, some 120⟩,
         ⟨⟨some 120, none, some ""⟩, some 140⟩,
         ⟨⟨some 120, some 140, some ""⟩, some 120⟩] := by
    simp [pubs, evsBad, e1, e2, e3]
  refine ⟨?_, ?_, ?_, ?_, ?_⟩
  · norm_num [evsBad, List.pairwise_cons]
  · intro e he hk
    fin_cases he <;> simp_all [peakStartMinutes, cfgA]
  · intro e he hk
    fin_cases he <;> simp_all [peakEndMinutes, cfgA]
  · rw [hpubs]
    simp
  · intro hch
    rw [hpubs, List.chain'_cons, List.chain'_cons] at hch
    obtain ⟨y, hy, hle⟩ := hch.2.1 140 rfl
    injection hy with hy2
    rw [← hy2] at hle
    norm_num at hle

/-- Witness for the amended C4: the spec's §8 day trace publishes
monotonically (100, 120, 120, 120, 130). -/
theorem publishes_monotone_witness :
    List.Chain' PubLE (pubs cfgA ⟨⟨none, none, none⟩, none⟩ evsGood) ∧
    (∀ p ∈ pubs cfgA ⟨⟨none, none, none⟩, none⟩ evsGood,
      ∃ v, p.native_value = some v) := by
  apply publishes_monotone cfgA ⟨⟨none, none, none⟩, none⟩ evsGood
      (by norm_num [peakStartMinutes, peakEndMinutes, cfgA]) rfl rfl
  · norm_num [evsGood, List.pairwise_cons]
  · intro e he hk
    fin_cases he <;> simp_all [peakStartMinutes, cfgA]
  · intro e he hk
    fin_cases he <;> simp_all [peakEndMinutes, cfgA]
  · norm_num [evsGood, List.pairwise_cons, peakEndMinutes, cfgA]
    decide

end EnergyOffpeak
